import Mathlib

/-!
Verification of the jinx evolutionary-optimization engine
(`src/optimization/evolutionary/geneticalgorithms.py` and
`src/Auxiliary/moreitertools.py`) against its natural-language
specification.

Python values are embedded as follows: `int` as `Int` or `Nat`, exact
`Fraction` arithmetic as `ℚ`, float constants such as `1.0` as the exact
rationals they denote, chromosomes (bit strings) as `String` or `List`,
and fallible code as `Except PyErr`.  Methods of `GeneticSystem` are
embedded as functions of the operator fields the constructor would have
stored (`self` becomes explicit arguments), and every stochastic
primitive (random chromosome creation, selector sampling, float power)
becomes an explicit oracle argument, so theorems quantify over all
random outcomes.
-/

set_option linter.unusedVariables false

namespace Jinx

/-- The Python exceptions the embedded code can raise.  Each constructor is
one concrete raise site (or dynamic failure site) of the source; keeping
them distinct lets theorems distinguish the spec's error taxonomy
(configuration errors versus attribute/name/unpacking failures). -/
inductive PyErr where
  /-- An attribute lookup or slotted assignment failed; the payload is the
  attribute name (after Python private-name mangling). -/
  | attributeError (name : String)
  /-- `run` check `survival_factor >= 1.0` (src line 881). -/
  | valueErrorSurvivalFactor
  /-- `run` check `replacement and (expansion_factor * survival_factor) <= 1.0`
  (src line 885). -/
  | valueErrorNoGrowth
  /-- `run` check: fractional `stagnation_limit` with `max_generations is None`
  (src line 890). -/
  | typeErrorStagnationLimit
  /-- `max()` or `min()` of an empty sequence (src line 907, 971). -/
  | valueErrorEmptySequence
  /-- `generation >= max_generations` with `max_generations = None`
  (src line 921). -/
  | typeErrorMaxGenerationsNone
  /-- A local variable was referenced before assignment; payload is the
  variable name. -/
  | nameError (name : String)
  /-- Tuple unpacking of a sequence whose length is not 2 (src lines 902,
  944, 964, 1061). -/
  | valueErrorUnpack
  /-- `str + list` concatenation in `cull_population` (src line 1063). -/
  | typeErrorConcatStrList
  /-- `run` calls `grow_population(population, fitness_values,
  desired_population_size, replacement)` (src line 950) but the method
  requires five positional arguments (src lines 1066-1072):
  `survival_factor` is missing, so the call itself raises TypeError. -/
  | typeErrorGrowPopulationArity
  /-- `run` passes `fitness_values` into `mutate_population`'s
  `mutation_factor` slot (src line 955); `math.floor(len(population) *
  mutation_factor)` on a list raises TypeError (src line 1160). -/
  | typeErrorMutationFactor
  /-- `best_fitness_achieved >= fitness_threshold` with
  `fitness_threshold = None` (src line 984). -/
  | typeErrorFitnessThresholdNone
  /-- `1.0 / (1.0 - decay)` with `decay = 1` in the polynomial decay
  (src line 744). -/
  | zeroDivisionError
  /-- Enum name lookup `BitStringBaseTypes[key]` with a hashable key that is
  not a member name (src line 230). -/
  | keyError
  /-- Enum name lookup with an unhashable key (a `list`) (src line 230). -/
  | typeErrorUnhashable
  /-- The final `else` of `GeneticEncoder.__init__`: unknown base
  (src line 237). -/
  | typeErrorUnknownBase
  /-- Modelling artifact: loop fuel ran out.  Unreachable from `run`, which
  hands the loop `max_generations` units of fuel while the loop stops as
  soon as `generation >= max_generations`. -/
  | loopFuelExhausted
  deriving DecidableEq

/-! ## `moreitertools.max_n` (src/Auxiliary/moreitertools.py lines 257-262) -/

/-- Python's builtin `max(iterable, key=key)`: `None` on an empty iterable
(where CPython raises ValueError), otherwise the first element attaining
the maximal key. -/
def pyMax {α : Type} (l : List α) (key : α → Int) : Option α :=
  match l with
  | [] => none
  | x :: xs => some (xs.foldl (fun m y => if key y > key m then y else m) x)

/-- `max_n` from `moreitertools` (src lines 257-262): `if n == 1: return
max(iterable, key=key)` (a single element), else `return sorted(iterable,
key=key)[:n]`.  Python's `sorted` is stable and ascending, embedded as a
stable insertion sort on the key order; the `*args_or_iterable` unpacking
is specialised to the single-iterable call form, and the key codomain is
specialised to `Int` (any totally ordered key behaves identically). -/
def max_n {α : Type} (l : List α) (n : Nat) (key : α → Int) :
    Option (α ⊕ List α) :=
  if n = 1 then (pyMax l key).map Sum.inl
  else some (Sum.inr ((l.insertionSort (fun a b => key a ≤ key b)).take n))

/-! ## `GeneticEncoder.__init__` base dispatch (src lines 222-237) -/

/-- The three members of the `BitStringBaseTypes` enum (src lines 133-152). -/
inductive BitStringBaseName where
  | bin
  | oct
  | hex
  deriving DecidableEq

/-- The frozen dataclass `BitStringBase` (src lines 73-105): a numeral-system
name, a format symbol and a bit width per gene. -/
structure BitStringBase where
  name : String
  format_ : String
  bits : Nat
  deriving DecidableEq

/-- `BitStringBaseTypes.bin.value` (src line 150). -/
def binBase : BitStringBase := { name := ("binary"), format_ := ("b"), bits := 1 }

/-- `BitStringBaseTypes.oct.value` (src line 151). -/
def octBase : BitStringBase := { name := ("octal"), format_ := ("o"), bits := 3 }

/-- `BitStringBaseTypes.hex.value` (src line 152). -/
def hexBase : BitStringBase := { name := ("hexadecimal"), format_ := ("x"), bits := 4 }

/-- `.value` of a `BitStringBaseTypes` member. -/
def bitStringBaseTypesValue : BitStringBaseName → BitStringBase
  | .bin => binBase
  | .oct => octBase
  | .hex => hexBase

/-- The runtime value passed as the `base` argument of
`GeneticEncoder.__init__`, covering the argument forms its signature
documents (src line 225): a string name, a `BitStringBaseTypes` member, a
`list` of gene values (only its length matters for dispatch), or an
`ArbitraryBase` instance (only its name matters for dispatch). -/
inductive PyBaseValue where
  | str (s : String)
  | bitStringMember (m : BitStringBaseName)
  | pyList (length : Nat)
  | arbitraryBaseInstance (name : String)
  deriving DecidableEq

/-- Python `isinstance(base, str)`. -/
def isinstanceStr : PyBaseValue → Bool
  | .str _ => true
  | _ => false

/-- Python `isinstance(base, BitStringBaseTypes)`. -/
def isinstanceBitStringBaseTypes : PyBaseValue → Bool
  | .bitStringMember _ => true
  | _ => false

/-- Python `isinstance(base, list)`. -/
def isinstanceList : PyBaseValue → Bool
  | .pyList _ => true
  | _ => false

/-- Python `isinstance(base, ArbitraryBase)`. -/
def isinstanceArbitraryBase : PyBaseValue → Bool
  | .arbitraryBaseInstance _ => true
  | _ => false

/-- `BitStringBaseTypes[key]`: `enum` name lookup in the member map, a dict
keyed by the member-name strings.  A string key that is a member name
succeeds; any other string raises KeyError; a `list` key is unhashable and
raises TypeError; any other hashable key is absent from the map and raises
KeyError. -/
def bitStringBaseTypesGetitem (key : PyBaseValue) : Except PyErr BitStringBase :=
  match key with
  | .str s =>
      if s = ("bin") then .ok binBase
      else if s = ("oct") then .ok octBase
      else if s = ("hex") then .ok hexBase
      else .error .keyError
  | .pyList _ => .error .typeErrorUnhashable
  | _ => .error .keyError

/-- The result `GeneticEncoder.__init__` stores in `self.__base`. -/
inductive EncoderBase where
  | bitString (b : BitStringBase)
  | arbitrary (name : String) (length : Nat)
  deriving DecidableEq

/-- The `base`-dispatch of `GeneticEncoder.__init__` (src lines 229-237),
branch for branch:

`if not isinstance(base, str): self.__base = BitStringBaseTypes[base].value`
`elif isinstance(base, BitStringBaseTypes): self.__base = base.value`
`elif isinstance(base, list): self.__base = ArbitraryBase("arbitrary", base)`
`elif isinstance(base, ArbitraryBase): self.__base = base`
`else: raise TypeError(...)`

The first test is `not isinstance(...)`, so every non-string goes to the
enum lookup and every string falls through the `elif` chain (each later
`isinstance` is false for a string) to the TypeError. -/
def geneticEncoderInitBase (base : PyBaseValue) : Except PyErr EncoderBase :=
  if ¬ isinstanceStr base then
    match bitStringBaseTypesGetitem base with
    | .error e => .error e
    | .ok b => .ok (.bitString b)
  else if isinstanceBitStringBaseTypes base then
    match base with
    | .bitStringMember m => .ok (.bitString (bitStringBaseTypesValue m))
    | _ => .error .typeErrorUnknownBase
  else if isinstanceList base then
    match base with
    | .pyList n => .ok (.arbitrary ("arbitrary") n)
    | _ => .error .typeErrorUnknownBase
  else if isinstanceArbitraryBase base then
    match base with
    | .arbitraryBaseInstance n => .ok (.arbitrary n 0)
    | _ => .error .typeErrorUnknownBase
  else .error .typeErrorUnknownBase

/-! ## `GeneticSystem.__slots__` and `__init__` (src lines 716-734) -/

/-- `GeneticSystem.__slots__` (src lines 716-720).  CPython applies
private-name mangling to slot names declared with two leading underscores
in a class body, so the slot descriptors carry the mangled names. -/
def geneticSystemSlots : List String :=
  ["_GeneticSystem__encoder", "_GeneticSystem__recombinator",
   "_GeneticSystem__mutator", "_GeneticSystem__random_generator"]

/-- The attribute names `GeneticSystem.__init__` assigns, in program order
(src lines 729-734), after private-name mangling: `self.__encoder`,
`self.__selector`, `self.__recombinator`, `self.__mutator`,
`self.__random_generator`. -/
def geneticSystemInitAttributes : List String :=
  ["_GeneticSystem__encoder", "_GeneticSystem__selector",
   "_GeneticSystem__recombinator", "_GeneticSystem__mutator",
   "_GeneticSystem__random_generator"]

/-- Sequential attribute assignment on a slotted instance with no
`__dict__`: each assignment to a name without a slot descriptor raises
AttributeError, and later assignments do not run. -/
def pySetattrChain (slots : List String) : List String → Except PyErr Unit
  | [] => .ok ()
  | a :: rest => if a ∈ slots then pySetattrChain slots rest
                 else .error (.attributeError a)

/-- `GeneticSystem.__init__(encoder, selector, recombinator, mutator)`
(src lines 722-734): performs the five slotted attribute assignments; a
successful construction would yield an instance carrying the four
operator arguments. -/
def geneticSystemInit {E S R M : Type} (encoder : E) (selector : S)
    (recombinator : R) (mutator : M) : Except PyErr (E × S × R × M) :=
  match pySetattrChain geneticSystemSlots geneticSystemInitAttributes with
  | .error e => .error e
  | .ok _ => .ok (encoder, selector, recombinator, mutator)

/-! ## `RankedSelector.select` probabilities (src lines 543-552) -/

/-- The probability vector `RankedSelector.select` builds (src lines
549-551): `rank_sum = (pop_size + 1) * (pop_size / 2.0)` and `ranks =
[Fraction(i / rank_sum) for i in range(pop_size)]`.  The float divisions
are embedded as exact rational arithmetic. -/
def rankedSelectorRanks (pop_size : Nat) : List ℚ :=
  (List.range pop_size).map
    (fun i => (i : ℚ) / (((pop_size : ℚ) + 1) * ((pop_size : ℚ) / 2)))

/-- The probability vector the specification asserts for the ranked
selector, written from the spec's words: position `i` (0-based) gets
probability `(i + 1) / sum(1..N)` where `sum(1..N) = (N + 1) * (N / 2)`. -/
def rankedSelectorRanksSpec (pop_size : Nat) : List ℚ :=
  (List.range pop_size).map
    (fun i => ((i : ℚ) + 1) / (((pop_size : ℚ) + 1) * ((pop_size : ℚ) / 2)))

/-! ## `PointCrossOver.recombine` (src lines 289-295) -/

/-- The pure part of `PointCrossOver.recombine` given the two drawn cut
indices: offspring 1 is `chromosome_1[:left] + chromosome_2[left:right] +
chromosome_1[right:]` and offspring 2 is the complementary swap
(src lines 294-295).  Python slices clamp, exactly like `take`/`drop`. -/
def pointCrossOverRecombine {α : Type} (chromosome_1 chromosome_2 : List α)
    (left right : Nat) : List α × List α :=
  (chromosome_1.take left ++ (chromosome_2.drop left).take (right - left)
     ++ chromosome_1.drop right,
   chromosome_2.take left ++ (chromosome_1.drop left).take (right - left)
     ++ chromosome_2.drop right)

/-- The set of cut-index pairs `PointCrossOver.recombine` can draw
(src lines 292-293): `left_point = randint(0, len(chromosome_1))` and
`right_point = randint(left_point, len(chromosome_1))`.  `numpy.random.randint`
excludes its upper bound, so `left` ranges over `[0, length)` and `right`
over `[left, length)`. -/
def pointCrossOverCutSupport (length : Nat) : List (Nat × Nat) :=
  (List.range length).flatMap
    (fun l => (List.range (length - l)).map (fun k => (l, l + k)))

/-- The probability of drawing the cut pair `(left, right)`: `left` is
uniform on `[0, length)` and, given `left`, `right` is uniform on
`[left, length)`. -/
def pointCrossOverCutProb (length left right : Nat) : ℚ :=
  if left < length ∧ left ≤ right ∧ right < length then
    (1 / (length : ℚ)) * (1 / ((length - left : Nat) : ℚ))
  else 0

/-- The cut-index range asserted by the claim and the spec, written from
their words: every pair with `0 ≤ left ≤ right ≤ length`. -/
def pointCrossOverClaimedCutRange (length : Nat) : List (Nat × Nat) :=
  (List.range (length + 1)).flatMap
    (fun l => (List.range (length + 1 - l)).map (fun k => (l, l + k)))

/-! ## Decay schedules (src lines 736-755) -/

/-- `GeneticSystem.linear_decay` (src lines 736-739):
`max(0.0, diversity_bias - decay)`. -/
def linear_decay (diversity_bias decay : ℚ) : ℚ :=
  max 0 (diversity_bias - decay)

/-- `GeneticSystem.exponential_decay` (src lines 746-755):
`diversity_bias * (1.0 - decay)`. -/
def exponential_decay (diversity_bias decay : ℚ) : ℚ :=
  diversity_bias * (1 - decay)

/-- `GeneticSystem.polynomial_decay` (src lines 741-744):
`diversity_bias ** (1.0 / (1.0 - decay))`, embedded over the reals with
real exponentiation (`Real.rpow`) standing for Python float power. -/
noncomputable def polynomial_decay (diversity_bias decay : ℝ) : ℝ :=
  diversity_bias ^ ((1 : ℝ) / (1 - decay))

/-! ## The `GeneticSystem.run` orchestrator (src lines 769-991)

`run` is embedded as a function of its parameters and of an oracle record
standing for the injected operators and every stochastic primitive.  The
chromosome type is `String`, as produced by `create_population`
(src lines 993-998).  Unused `run` parameters (`selection_scheme`,
`fitness_proportion`, `stagnation_proportion`, the reproduction-elitism
and mutation-step-size groups) are omitted: the body never reads them.
The progress sink `ResourceProgressBar` (`auxiliary.ProgressBars`, not
under `src/`) is modelled from the spec: a per-generation reporting sink
"otherwise inert to the algorithm's correctness", hence a no-op here. -/

/-- Python `math.ceil` on an exact `Fraction`. -/
def ratCeil (q : ℚ) : Int := Int.ceil q

/-- Python `int()` truncation (toward zero) of an exact `Fraction`. -/
def pyInt (q : ℚ) : Int :=
  if 0 ≤ q then Int.floor q else Int.ceil q

/-- Clamp a (possibly negative) Python slice index on a sequence of length
`n` to the start offset it denotes. -/
def pyIndexClamp (n k : Int) : Nat :=
  (if k < 0 then max 0 (n + k) else min k n).toNat

/-- Python `l[k:]` for an arbitrary integer `k`. -/
def pySliceFrom {α : Type} (l : List α) (k : Int) : List α :=
  l.drop (pyIndexClamp (l.length : Int) k)

/-- Python `l[0:k]` for an arbitrary integer `k`. -/
def pySliceTo {α : Type} (l : List α) (k : Int) : List α :=
  l.take (pyIndexClamp (l.length : Int) k)

/-- Python `max()` over a list of rationals (`None` on the empty list, where
CPython raises ValueError). -/
def pyMaxQ (l : List ℚ) : Option ℚ :=
  match l with
  | [] => none
  | x :: xs => some (xs.foldl max x)

/-- Python `min()` over a list of rationals. -/
def pyMinQ (l : List ℚ) : Option ℚ :=
  match l with
  | [] => none
  | x :: xs => some (xs.foldl min x)

/-- `max(enumerate(fitness_values), key=lambda item: item[1])` (src line
971): the first index attaining the maximal value. -/
def pyArgMaxQ (l : List ℚ) : Option (Nat × ℚ) :=
  match l with
  | [] => none
  | x :: xs =>
      some ((xs.enumFrom 1).foldl
        (fun acc p => if p.2 > acc.2 then p else acc) (0, x))

/-- The idiom `population, fitness_values = zip(*sorted(zip(population,
fitness_values), key=lambda item: item[1]))` (src lines 902-905, 964-967)
on a non-empty zip: stable ascending sort of the pairs by fitness, then
unzip. -/
def sortByFitness (population : List String) (fitness_values : List ℚ) :
    List String × List ℚ :=
  let pairs := (population.zip fitness_values).insertionSort
    (fun a b => a.2 ≤ b.2)
  (pairs.map Prod.fst, pairs.map Prod.snd)

/-- A resolved decay-type argument: the `DecayType` enum members / the
literals `"lin" | "pol" | "exp"` accepted by `get_decay_function`
(src lines 757-761, 1186-1190). -/
inductive DecayChoice where
  | lin
  | pol
  | exp
  deriving DecidableEq

/-- Application of the decay function selected by `get_decay_function`
(src lines 757-761).  The polynomial schedule computes the float power
`v ** (1.0 / (1.0 - d))` (src line 744): `d = 1` raises ZeroDivisionError,
and the float power itself is the caller-supplied oracle `powf` (machine
floats are not embedded; every theorem below holds for all `powf`). -/
def applyDecay (powf : ℚ → ℚ → ℚ) : DecayChoice → ℚ → ℚ → Except PyErr ℚ
  | .lin, v, d => .ok (linear_decay v d)
  | .exp, v, d => .ok (exponential_decay v d)
  | .pol, v, d => if d = 1 then .error .zeroDivisionError
                  else .ok (powf v (1 / (1 - d)))

/-- The parameters of `run` that its body reads (src lines 769-820).
`stagnation_limit` has type `Optional[int | Fraction]` (src line 809),
embedded as `Option (Int ⊕ ℚ)` with `Sum.inr` the non-integer
(`Fraction`) case. -/
structure RunParams where
  init_pop_size : Nat
  max_pop_size : Int
  expansion_factor : ℚ
  survival_factor : ℚ
  survival_elitism_factor : Option ℚ
  replacement : Bool
  mutation_factor : ℚ
  mutation_factor_growth : ℚ
  mutation_factor_growth_type : Option DecayChoice
  max_generations : Option Int
  fitness_threshold : Option ℚ
  stagnation_limit : Option (Int ⊕ ℚ)
  diversity_bias : Option ℚ
  diversity_bias_decay : Option ℚ
  diversity_bias_decay_type : Option DecayChoice
  deriving DecidableEq

/-- The operator fields of `GeneticSystem` and the stochastic primitives,
as oracles.  `encoder_gene_length` models the `gene_length` attribute
`create_population` reads from the encoder (src lines 995, 997): the
`GeneticEncoder` class defines `chromosome_length` but no `gene_length`
(src lines 222-262), so on every encoder of this repository the lookup
raises AttributeError; `some` models a user subclass that adds the
attribute.  `random_chromosome` subsumes `getrandbits` plus the
bit-string formatting of src lines 996-997; `selector_select` follows the
abstract `GeneticSelector.select` signature (src lines 499-505). -/
structure RunOracles where
  encoder_gene_length : Option Nat
  random_chromosome : Nat → String
  evaluate_fitness : String → ℚ
  selector_scale : List ℚ → List ℚ
  selector_select : List String → List ℚ → Int → List String
  powf : ℚ → ℚ → ℚ

/-- The dataclass `GeneticAlgorithmSolution` (src lines 632-642); the three
termination flags default to `False`. -/
structure GeneticAlgorithmSolution where
  best_individual : String
  best_fitness : ℚ
  population : List String
  fitness_values : List ℚ
  max_fitness_reached : Bool := false
  max_generations_reached : Bool := false
  stagnation_limit_reached : Bool := false
  deriving DecidableEq

/-- The local variables of `run` live across loop iterations
(src lines 896-917).  `best_individual_achieved` starts unbound (src never
initialises it before the loop), embedded as `none`; referencing it while
`none` is a NameError. -/
structure LoopState where
  population : List String
  fitness_values : List ℚ
  max_fitness : ℚ
  min_fitness : ℚ
  generation : Nat
  best_fitness_achieved : ℚ
  best_individual_achieved : Option String
  stagnated_generations : Nat
  diversity_bias : Option ℚ
  mutation_factor : ℚ
  deriving DecidableEq

/-- The stagnation-limit resolution of `run` (src lines 890-894): a
non-integer `stagnation_limit` requires `max_generations`, and is then
replaced by `int(stagnation_limit * max_generations)`. -/
def resolveStagnationLimit :
    Option (Int ⊕ ℚ) → Option Int → Except PyErr (Option Int)
  | none, _ => .ok none
  | some (.inl n), _ => .ok (some n)
  | some (.inr _), none => .error .typeErrorStagnationLimit
  | some (.inr q), some mg => .ok (some (pyInt (q * (mg : ℚ))))

/-- `GeneticSystem.create_population` (src lines 993-998): reads
`self.__encoder.gene_length`, an attribute no encoder class of the
repository defines (they define `chromosome_length`), raising
AttributeError; when a subclass supplies it, the method returns
`population_size` independently drawn random bit-string chromosomes. -/
def create_population (O : RunOracles) (population_size : Nat) :
    Except PyErr (List String) :=
  match O.encoder_gene_length with
  | none => .error (.attributeError ("gene_length"))
  | some _ => .ok ((List.range population_size).map O.random_chromosome)

/-- What `cull_population` evaluates to: the branches of src lines
1041-1055 return a `(population, fitness_values)` pair, while the
no-elitism branch (src line 1046) returns the selector's chromosome list
directly. -/
inductive CullResult where
  | pair (population : List String) (fitness_values : List ℚ)
  | selectedOnly (selected : List String)
  deriving DecidableEq

/-- `GeneticSystem.cull_population` (src lines 1000-1064), branch for
branch.  `survive_quantity = math.ceil(population_size * survival_factor)`;
all-survive returns the inputs; `elitism_factor is None` returns the
selector's selection; all-elite returns the top slices.  The remaining
(mixed) branch computes the competitive slices and then (src line 1061)
unpacks the selector's returned chromosome list into the two variables
`comp_popluation, comp_fitness_values` — a ValueError unless that list
has length 2 — after which (src line 1063) `comp_popluation +
population[population_size - elite_quantity:]` concatenates a chromosome
(a `str`) with a list of chromosomes, raising TypeError. -/
def cull_population (select : List String → List ℚ → Int → List String)
    (population : List String) (fitness_values : List ℚ)
    (survival_factor : ℚ) (elitism_factor : Option ℚ) :
    Except PyErr CullResult :=
  let population_size : Int := (population.length : Int)
  let survive_quantity : Int := ratCeil ((population_size : ℚ) * survival_factor)
  if population_size = survive_quantity then
    .ok (.pair population fitness_values)
  else
    match elitism_factor with
    | none => .ok (.selectedOnly (select population fitness_values survive_quantity))
    | some ef =>
      let elite_quantity : Int := ratCeil ((survive_quantity : ℚ) * ef)
      if survive_quantity = elite_quantity then
        .ok (.pair (pySliceFrom population (population_size - survive_quantity))
                   (pySliceFrom fitness_values (population_size - survive_quantity)))
      else
        let comp_quantity : Int := survive_quantity - elite_quantity
        let comp_population := pySliceTo population (population_size - elite_quantity)
        let comp_fitness_values := pySliceTo fitness_values (population_size - elite_quantity)
        let selected := select comp_population comp_fitness_values comp_quantity
        if selected.length = 2 then .error .typeErrorConcatStrList
        else .error .valueErrorUnpack

/-- Step 1 of a generation (src lines 922-934): age the diversity bias when
both a decay amount and a decay type are given, then inflate every fitness
by `(max_fitness - fitness) * diversity_bias`. -/
def biasAdjust (P : RunParams) (O : RunOracles) (st : LoopState) :
    Except PyErr (Option ℚ × List ℚ) :=
  match st.diversity_bias with
  | none => .ok (none, st.fitness_values)
  | some db =>
    match P.diversity_bias_decay, P.diversity_bias_decay_type with
    | some dd, some dt =>
      match applyDecay O.powf dt db dd with
      | .error e => .error e
      | .ok db2 =>
        .ok (some db2,
             st.fitness_values.map (fun f => f + (st.max_fitness - f) * db2))
    | _, _ =>
      .ok (some db,
           st.fitness_values.map (fun f => f + (st.max_fitness - f) * db))

/-- The tail of a generation after the population-growth call (src lines
953-989), kept for structural fidelity: every path into it first passes
the `grow_population` call of src line 950, which raises (see
`runGenerationBody`), so this code is unreachable from `run`.  It performs
mutation-factor growth, the `mutate_population` call (whose argument
mismatch raises, src line 955 versus 1142-1146), re-evaluation, the
elitism re-sort, stagnation bookkeeping and the two in-loop returns
(src lines 984-989), each constructing a solution with exactly one
termination flag set. -/
def afterGrowth (P : RunParams) (O : RunOracles)
    (stagnation_limit : Option Int) (st : LoopState)
    (diversity_bias : Option ℚ) (population : List String)
    (fitness_values : List ℚ) (desired_population_size : Int) :
    Except PyErr (GeneticAlgorithmSolution ⊕ LoopState) :=
  match (.error .typeErrorGrowPopulationArity : Except PyErr (List String)) with
  | .error e => .error e
  | .ok population2 =>
    -- src lines 953-954: the growth function is a local bound only when a
    -- growth type was given; otherwise referencing it is a NameError.
    match (if st.generation = 0 then .ok st.mutation_factor
           else match P.mutation_factor_growth_type with
                | none => .error (.nameError ("mutation_factor_growth_function"))
                | some dt =>
                    applyDecay O.powf dt st.mutation_factor
                      P.mutation_factor_growth :
           Except PyErr ℚ) with
    | .error e => .error e
    | .ok mutation_factor2 =>
      -- src line 955: mutate_population(population, fitness_values,
      -- mutation_distribution) binds the fitness list to mutation_factor;
      -- math.floor(len(population) * <list>) raises TypeError (src 1160).
      match (.error .typeErrorMutationFactor : Except PyErr (List String)) with
      | .error e => .error e
      | .ok mutated_population =>
        let fitness_values2 := mutated_population.map O.evaluate_fitness
        match (if P.survival_elitism_factor.isSome then
                 if mutated_population.zip fitness_values2 = [] then
                   .error .valueErrorUnpack
                 else
                   let pf := sortByFitness mutated_population fitness_values2
                   match pf.1.getLast?, pf.2.getLast? with
                   | some mi, some mf => .ok (pf.1, pf.2, mi, mf, st.min_fitness)
                   | _, _ => .error .valueErrorEmptySequence
               else
                 match pyArgMaxQ fitness_values2, pyMinQ fitness_values2 with
                 | some (idx, mf), some mn =>
                   match mutated_population[idx]? with
                   | some mi => .ok (mutated_population, fitness_values2, mi, mf, mn)
                   | none => .error .valueErrorEmptySequence
                 | _, _ => .error .valueErrorEmptySequence :
               Except PyErr (List String × List ℚ × String × ℚ × ℚ)) with
        | .error e => .error e
        | .ok (population3, fitness_values3, max_individual, max_fitness2, min_fitness2) =>
          let improved := max_fitness2 > st.best_fitness_achieved
          let best_fitness_achieved :=
            if improved then max_fitness2 else st.best_fitness_achieved
          let best_individual_achieved :=
            if improved then some max_individual else st.best_individual_achieved
          let stagnated_generations :=
            if improved then st.stagnated_generations
            else st.stagnated_generations + 1
          let generation := st.generation + 1
          -- src line 984: best_fitness_achieved >= fitness_threshold is a
          -- TypeError when fitness_threshold is None.
          match P.fitness_threshold with
          | none => .error .typeErrorFitnessThresholdNone
          | some ft =>
            if best_fitness_achieved ≥ ft then
              match best_individual_achieved with
              | none => .error (.nameError ("best_individual_achieved"))
              | some b =>
                .ok (.inl { best_individual := b,
                            best_fitness := best_fitness_achieved,
                            population := population3,
                            fitness_values := fitness_values3,
                            max_fitness_reached := true })
            else if (match stagnation_limit with
                     | none => false
                     | some sl => (stagnated_generations : Int) = sl) then
              match best_individual_achieved with
              | none => .error (.nameError ("best_individual_achieved"))
              | some b =>
                .ok (.inl { best_individual := b,
                            best_fitness := best_fitness_achieved,
                            population := population3,
                            fitness_values := fitness_values3,
                            stagnation_limit_reached := true })
            else
              .ok (.inr { population := population3,
                          fitness_values := fitness_values3,
                          max_fitness := max_fitness2,
                          min_fitness := min_fitness2,
                          generation := generation,
                          best_fitness_achieved := best_fitness_achieved,
                          best_individual_achieved := best_individual_achieved,
                          stagnated_generations := stagnated_generations,
                          diversity_bias := diversity_bias,
                          mutation_factor := mutation_factor2 })

/-- One execution of the `while` body of `run` (src lines 922-989): bias
adjustment, selector scaling, culling (with `run`'s tuple-unpacking of the
cull result, src line 944), the desired-size computation and the
`grow_population` call of src line 950 — which passes four positional
arguments to a method requiring five, raising TypeError at the call —
then the structurally-faithful unreachable remainder (`afterGrowth`). -/
def runGenerationBody (P : RunParams) (O : RunOracles)
    (stagnation_limit : Option Int) (st : LoopState) :
    Except PyErr (GeneticAlgorithmSolution ⊕ LoopState) :=
  match biasAdjust P O st with
  | .error e => .error e
  | .ok (diversity_bias, fv0) =>
    let fitness_values := O.selector_scale fv0
    let base_population_size := st.population.length
    match cull_population O.selector_select st.population fitness_values
            P.survival_factor P.survival_elitism_factor with
    | .error e => .error e
    | .ok (.selectedOnly sel) =>
      -- src line 944 unpacks the selector's single returned list into
      -- (population, fitness_values): ValueError unless it has length 2,
      -- and then the grow_population call below still raises.
      if sel.length = 2 then .error .typeErrorGrowPopulationArity
      else .error .valueErrorUnpack
    | .ok (.pair population fitness_values2) =>
      let desired_population_size : Int :=
        min (ratCeil ((base_population_size : ℚ) * P.expansion_factor))
            P.max_pop_size
      afterGrowth P O stagnation_limit st diversity_bias population
        fitness_values2 desired_population_size

/-- The loop-condition check of src line 921 together with the final
return of src line 991: `generation >= max_generations` raises TypeError
on a `None` bound; on exit, the solution is built (with only
`max_generations_reached` set) from `best_individual_achieved`, a
NameError if that local was never assigned; otherwise the loop body
outcome `cont` is the result. -/
def runLoopCheck (P : RunParams) (st : LoopState)
    (cont : Except PyErr GeneticAlgorithmSolution) :
    Except PyErr GeneticAlgorithmSolution :=
  match P.max_generations with
  | none => .error .typeErrorMaxGenerationsNone
  | some mg =>
    if (st.generation : Int) ≥ mg then
      match st.best_individual_achieved with
      | none => .error (.nameError ("best_individual_achieved"))
      | some b =>
        .ok { best_individual := b,
              best_fitness := st.best_fitness_achieved,
              population := st.population,
              fitness_values := st.fitness_values,
              max_generations_reached := true }
    else cont

/-- The `while not (generation >= max_generations)` loop of `run`
(src lines 921-991), by recursion on fuel.  The fuel argument is a
modelling device: `run` passes `max_generations` units and the loop stops
at `generation >= max_generations` after incrementing `generation` each
iteration, so fuel never runs out. -/
def runLoop (P : RunParams) (O : RunOracles) (stagnation_limit : Option Int) :
    Nat → LoopState → Except PyErr GeneticAlgorithmSolution
  | 0, st => runLoopCheck P st (.error .loopFuelExhausted)
  | fuel + 1, st =>
    runLoopCheck P st
      (match runGenerationBody P O stagnation_limit st with
       | .error e => .error e
       | .ok (.inl sol) => .ok sol
       | .ok (.inr st') => runLoop P O stagnation_limit fuel st')

/-- The fuel handed to `runLoop`; irrelevant when `max_generations` is
`None` (the loop raises before consuming fuel). -/
def loopFuel : Option Int → Nat
  | none => 0
  | some mg => mg.toNat

/-- The initial (and in-loop) elitism sort step (src lines 901-905): when
`survival_elitism_factor is not None`, `zip(*sorted(zip(population,
fitness_values), key=lambda item: item[1]))` is unpacked into the two
sequences — a ValueError when the zip is empty — re-establishing the
ascending order. -/
def sortIfElitism (survival_elitism_factor : Option ℚ)
    (population : List String) (fitness_values : List ℚ) :
    Except PyErr (List String × List ℚ) :=
  match survival_elitism_factor with
  | none => .ok (population, fitness_values)
  | some _ =>
    if population.zip fitness_values = [] then .error .valueErrorUnpack
    else .ok (sortByFitness population fitness_values)

/-- The part of `run` after the three configuration checks (src lines
896-991): population creation and evaluation, the initial elitism sort,
the `max`/`min` of the fitness values (src line 907), and the generation
loop started at generation 0 with `best_fitness_achieved = max_fitness`
and the best-individual local unbound. -/
def runMain (P : RunParams) (O : RunOracles) (stagnation_limit : Option Int) :
    Except PyErr GeneticAlgorithmSolution :=
  match create_population O P.init_pop_size with
  | .error e => .error e
  | .ok population0 =>
    let fitness_values0 := population0.map O.evaluate_fitness
    match sortIfElitism P.survival_elitism_factor population0 fitness_values0 with
    | .error e => .error e
    | .ok (population, fitness_values) =>
      match pyMaxQ fitness_values, pyMinQ fitness_values with
      | some max_fitness, some min_fitness =>
        runLoop P O stagnation_limit (loopFuel P.max_generations)
          { population := population,
            fitness_values := fitness_values,
            max_fitness := max_fitness,
            min_fitness := min_fitness,
            generation := 0,
            best_fitness_achieved := max_fitness,
            best_individual_achieved := none,
            stagnated_generations := 0,
            diversity_bias := P.diversity_bias,
            mutation_factor := P.mutation_factor }
      | _, _ => .error .valueErrorEmptySequence

/-- `GeneticSystem.run` (src lines 769-991): the two configuration
`ValueError` checks (src lines 881-888), the stagnation-limit resolution
(src lines 890-894, a configuration TypeError when a fractional limit
meets an unset `max_generations`), then the rest of the method. -/
def run (P : RunParams) (O : RunOracles) :
    Except PyErr GeneticAlgorithmSolution :=
  if P.survival_factor ≥ 1 then .error .valueErrorSurvivalFactor
  else if P.replacement ∧ P.expansion_factor * P.survival_factor ≤ 1 then
    .error .valueErrorNoGrowth
  else
    match resolveStagnationLimit P.stagnation_limit P.max_generations with
    | .error e => .error e
    | .ok stagnation_limit => runMain P O stagnation_limit

/-! ## Result predicates for the `run` theorems -/

/-- Number of termination flags set on a solution. -/
def flagCount (s : GeneticAlgorithmSolution) : Nat :=
  (if s.max_fitness_reached then 1 else 0)
  + (if s.max_generations_reached then 1 else 0)
  + (if s.stagnation_limit_reached then 1 else 0)

/-- True when a `run` outcome is either a raise or a solution with exactly
one termination flag set. -/
def exactlyOneFlagIfOk : Except PyErr GeneticAlgorithmSolution → Bool
  | .error _ => true
  | .ok s => flagCount s == 1

/-- The configuration errors of the spec's taxonomy that `run` itself
raises: its three deliberate pre-loop argument checks (src lines
881-894).  The other constructors are attribute/name/unpacking/empty-
sequence failures, which the spec classes separately. -/
def errIsConfig : PyErr → Bool
  | .valueErrorSurvivalFactor => true
  | .valueErrorNoGrowth => true
  | .typeErrorStagnationLimit => true
  | _ => false

/-- True when `run` raised one of its three configuration errors. -/
def resultIsConfigError : Except PyErr GeneticAlgorithmSolution → Bool
  | .error e => errIsConfig e
  | .ok _ => false

/-- The claim's precondition disjunction: `survival_factor >= 1.0`, or
replacement enabled with `expansion_factor * survival_factor <= 1.0`, or
a fractional `stagnation_limit` with `max_generations` unset. -/
def preconditionViolatedB (P : RunParams) : Bool :=
  decide (P.survival_factor ≥ 1)
  || (P.replacement && decide (P.expansion_factor * P.survival_factor ≤ 1))
  || ((match P.stagnation_limit with
       | some (.inr _) => true
       | _ => false) && P.max_generations.isNone)

/-- The configuration error the first violated check raises, in the
checks' program order (src lines 881-894); `none` when no check fires. -/
def firstConfigError (P : RunParams) : Option PyErr :=
  if P.survival_factor ≥ 1 then some .valueErrorSurvivalFactor
  else if P.replacement ∧ P.expansion_factor * P.survival_factor ≤ 1 then
    some .valueErrorNoGrowth
  else
    match P.stagnation_limit, P.max_generations with
    | some (.inr _), none => some .typeErrorStagnationLimit
    | _, _ => none

/-- True when a loop outcome raised a non-configuration error, returned a
solution with exactly one flag, or continued. -/
def bodyResultGood : Except PyErr (GeneticAlgorithmSolution ⊕ LoopState) → Bool
  | .error e => !errIsConfig e
  | .ok (.inl s) => flagCount s == 1
  | .ok (.inr _) => true

/-- True when a run outcome raised a non-configuration error or returned a
solution with exactly one flag. -/
def runResultGood : Except PyErr GeneticAlgorithmSolution → Bool
  | .error e => !errIsConfig e
  | .ok s => flagCount s == 1

theorem exactlyOneFlagIfOk_of_good {r : Except PyErr GeneticAlgorithmSolution}
    (h : runResultGood r = true) : exactlyOneFlagIfOk r = true := by
  cases r with
  | error e => rfl
  | ok s => exact h

theorem notConfig_of_good {r : Except PyErr GeneticAlgorithmSolution}
    (h : runResultGood r = true) : resultIsConfigError r = false := by
  cases r with
  | error e =>
    simp only [runResultGood, Bool.not_eq_true'] at h
    exact h
  | ok s => rfl

/-- Shape classifier for `biasAdjust` outcomes: success or the
polynomial-decay ZeroDivisionError. -/
def biasOutcomeOk : Except PyErr (Option ℚ × List ℚ) → Bool
  | .ok _ => true
  | .error .zeroDivisionError => true
  | _ => false

/-- Shape classifier for decay-function application outcomes. -/
def decayOutcomeOk : Except PyErr ℚ → Bool
  | .ok _ => true
  | .error .zeroDivisionError => true
  | _ => false

theorem applyDecay_shape (powf : ℚ → ℚ → ℚ) (dt : DecayChoice) (v d : ℚ) :
    decayOutcomeOk (applyDecay powf dt v d) = true := by
  unfold applyDecay
  repeat' split
  all_goals rfl

theorem biasAdjust_shape (P : RunParams) (O : RunOracles) (st : LoopState) :
    biasOutcomeOk (biasAdjust P O st) = true := by
  unfold biasAdjust
  rcases st.diversity_bias with _ | db
  · rfl
  · rcases P.diversity_bias_decay with _ | dd <;>
      rcases P.diversity_bias_decay_type with _ | dt <;>
        try rfl
    dsimp only
    rcases h : applyDecay O.powf dt db dd with e | db2
    · have hs := applyDecay_shape O.powf dt db dd
      rw [h] at hs
      cases e <;> simp_all [decayOutcomeOk, biasOutcomeOk]
    · rfl

/-- Shape classifier for `cull_population` outcomes: a result, or one of
the two mixed-branch failures. -/
def cullOutcomeOk : Except PyErr CullResult → Bool
  | .ok _ => true
  | .error .typeErrorConcatStrList => true
  | .error .valueErrorUnpack => true
  | _ => false

theorem cull_population_shape
    (select : List String → List ℚ → Int → List String)
    (population : List String) (fitness_values : List ℚ)
    (survival_factor : ℚ) (elitism_factor : Option ℚ) :
    cullOutcomeOk (cull_population select population fitness_values
      survival_factor elitism_factor) = true := by
  unfold cull_population
  dsimp only
  repeat' split
  all_goals rfl

theorem errIsConfig_of_biasOutcome {e : PyErr}
    (h : biasOutcomeOk (.error e) = true) : errIsConfig e = false := by
  cases e <;> first | rfl | exact absurd h (by decide)

theorem errIsConfig_of_cullOutcome {e : PyErr}
    (h : cullOutcomeOk (.error e) = true) : errIsConfig e = false := by
  cases e <;> first | rfl | exact absurd h (by decide)

/-- Every execution of the generation body raises, and what it raises is
never one of the three configuration errors: the `grow_population` call of
src line 950 is reached on every non-raising cull path and itself raises
the missing-argument TypeError. -/
theorem runGenerationBody_errors (P : RunParams) (O : RunOracles)
    (stagnation_limit : Option Int) (st : LoopState) :
    ∃ e, runGenerationBody P O stagnation_limit st = .error e ∧
      errIsConfig e = false := by
  unfold runGenerationBody
  rcases hb : biasAdjust P O st with e | ⟨db, fv⟩
  · refine ⟨e, rfl, ?_⟩
    have := biasAdjust_shape P O st
    rw [hb] at this
    exact errIsConfig_of_biasOutcome this
  · dsimp only
    rcases hc : cull_population O.selector_select st.population
        (O.selector_scale fv) P.survival_factor P.survival_elitism_factor with
      e | c
    · refine ⟨e, rfl, ?_⟩
      have := cull_population_shape O.selector_select st.population
        (O.selector_scale fv) P.survival_factor P.survival_elitism_factor
      rw [hc] at this
      exact errIsConfig_of_cullOutcome this
    · rcases c with ⟨p, f⟩ | l
      · exact ⟨.typeErrorGrowPopulationArity, rfl, rfl⟩
      · dsimp only
        by_cases h2 : l.length = 2
        · simp only [h2, if_true]
          exact ⟨_, rfl, rfl⟩
        · simp only [h2, if_false]
          exact ⟨_, rfl, rfl⟩

/-- Every outcome of the generation loop is a non-configuration raise or a
solution carrying exactly one termination flag. -/
theorem runLoopCheck_good (P : RunParams) (st : LoopState)
    {cont : Except PyErr GeneticAlgorithmSolution}
    (hc : runResultGood cont = true) :
    runResultGood (runLoopCheck P st cont) = true := by
  unfold runLoopCheck
  rcases P.max_generations with _ | mg
  · rfl
  · dsimp only
    by_cases hge : (st.generation : Int) ≥ mg
    · simp only [hge, if_true]
      rcases st.best_individual_achieved with _ | b
      · rfl
      · rfl
    · simpa only [hge, if_false] using hc

theorem runLoop_good (P : RunParams) (O : RunOracles)
    (stagnation_limit : Option Int) (fuel : Nat) (st : LoopState) :
    runResultGood (runLoop P O stagnation_limit fuel st) = true := by
  induction fuel generalizing st with
  | zero => exact runLoopCheck_good P st rfl
  | succ fuel ih =>
    refine runLoopCheck_good P st ?_
    obtain ⟨e, he, hne⟩ := runGenerationBody_errors P O stagnation_limit st
    rw [he]
    simp [runResultGood, hne]

/-- Shape classifier for the elitism sort step: success or the
empty-unpack ValueError. -/
def sortOutcomeOk : Except PyErr (List String × List ℚ) → Bool
  | .ok _ => true
  | .error .valueErrorUnpack => true
  | _ => false

theorem sortIfElitism_shape (sef : Option ℚ) (population : List String)
    (fitness_values : List ℚ) :
    sortOutcomeOk (sortIfElitism sef population fitness_values) = true := by
  unfold sortIfElitism
  repeat' split
  all_goals rfl

theorem errIsConfig_of_sortOutcome {e : PyErr}
    (h : sortOutcomeOk (.error e) = true) : errIsConfig e = false := by
  cases e <;> first | rfl | exact absurd h (by decide)

/-- Every outcome of the post-check part of `run` is a non-configuration
raise or a solution with exactly one termination flag. -/
theorem runMain_good (P : RunParams) (O : RunOracles)
    (stagnation_limit : Option Int) :
    runResultGood (runMain P O stagnation_limit) = true := by
  unfold runMain create_population
  rcases O.encoder_gene_length with _ | gl
  · rfl
  · dsimp only
    rcases hs : sortIfElitism P.survival_elitism_factor
        ((List.range P.init_pop_size).map O.random_chromosome)
        (((List.range P.init_pop_size).map O.random_chromosome).map
          O.evaluate_fitness) with e | ⟨population, fitness_values⟩
    · have := sortIfElitism_shape P.survival_elitism_factor
        ((List.range P.init_pop_size).map O.random_chromosome)
        (((List.range P.init_pop_size).map O.random_chromosome).map
          O.evaluate_fitness)
      rw [hs] at this
      have h2 := errIsConfig_of_sortOutcome this
      simp [runResultGood, h2]
    · dsimp only
      rcases pyMaxQ fitness_values with _ | mx <;>
        rcases pyMinQ fitness_values with _ | mn <;>
          first
            | rfl
            | exact runLoop_good P O stagnation_limit
                (loopFuel P.max_generations) _

/-- C2: whenever `run` returns a `GeneticAlgorithmSolution` rather than
raising, exactly one of `max_fitness_reached`, `max_generations_reached`
and `stagnation_limit_reached` is true on it — never zero and never more
than one.  Each of the three return statements of `run` (src lines 985,
989, 991) passes exactly one flag to the dataclass, whose other flags
default to `False`. -/
theorem run_termination_exclusivity (P : RunParams) (O : RunOracles) :
    exactlyOneFlagIfOk (run P O) = true := by
  unfold run
  split
  · rfl
  · split
    · rfl
    · rcases hr : resolveStagnationLimit P.stagnation_limit
          P.max_generations with e | sl
      · rfl
      · exact exactlyOneFlagIfOk_of_good (runMain_good P O _)

/-- C3: `run` raises one of its three configuration errors if and only if
one of the stated preconditions is violated (`survival_factor >= 1.0`;
replacement enabled with `expansion_factor * survival_factor <= 1.0`; a
fractional `stagnation_limit` with `max_generations` unset), and in each
such case the result is exactly the error of the first violated check,
raised before the population is created and before any generation-loop
iteration runs (the checks precede `create_population` and the loop in
`run`, and the result does not depend on any oracle). -/
theorem run_config_error_iff (P : RunParams) (O : RunOracles) :
    resultIsConfigError (run P O) = preconditionViolatedB P ∧
    (∀ e, firstConfigError P = some e → run P O = .error e) := by
  constructor
  · unfold run preconditionViolatedB
    by_cases h1 : P.survival_factor ≥ 1
    · simp [h1, resultIsConfigError, errIsConfig]
    · by_cases h2 : (P.replacement = true) ∧
          P.expansion_factor * P.survival_factor ≤ 1
      · simp [h1, h2.1, h2.2, resultIsConfigError, errIsConfig]
      · have h2b : ¬ ((P.replacement : Prop) ∧
            P.expansion_factor * P.survival_factor ≤ 1) := h2
        have h2c : P.replacement = true →
            1 < P.expansion_factor * P.survival_factor :=
          fun hr => not_le.mp fun hle => h2 ⟨hr, hle⟩
        have h2d : (P.replacement &&
            decide (P.expansion_factor * P.survival_factor ≤ 1)) = false := by
          cases hrepl : P.replacement with
          | false => rfl
          | true => simp [decide_eq_false (not_le.mpr (h2c hrepl))]
        simp only [h1, if_false, h2b, decide_eq_true_eq]
        rcases hsl : P.stagnation_limit with _ | sl
        · have := notConfig_of_good (runMain_good P O none)
          simp only [resolveStagnationLimit, this, Option.isNone_none,
            Bool.and_false, Bool.and_true, Bool.false_or, Bool.or_false]
          simp [h2d]
        · rcases sl with n | q
          · have := notConfig_of_good (runMain_good P O (some n))
            simp only [resolveStagnationLimit, this]
            simp [h2d]
          · rcases hmg : P.max_generations with _ | mg
            · simp [resolveStagnationLimit, resultIsConfigError, errIsConfig]
            · have := notConfig_of_good
                (runMain_good P O (some (pyInt (q * (mg : ℚ)))))
              simp only [resolveStagnationLimit, this]
              simp [h2d]
  · intro e he
    unfold firstConfigError at he
    unfold run
    by_cases h1 : P.survival_factor ≥ 1
    · simp only [h1, if_true] at he ⊢
      cases he
      rfl
    · simp only [h1, if_false] at he ⊢
      by_cases h2 : (P.replacement : Prop) ∧
          P.expansion_factor * P.survival_factor ≤ 1
      · simp only [h2, if_true] at he ⊢
        cases he
        rfl
      · simp only [h2, if_false] at he ⊢
        rcases hsl : P.stagnation_limit with _ | sl <;>
          rw [hsl] at he
        · cases he
        · rcases sl with n | q
          · cases he
          · rcases hmg : P.max_generations with _ | mg <;> rw [hmg] at he
            · cases he
              simp [resolveStagnationLimit]
            · cases he

/-- Oracles whose every answer is inert; used to exercise theorems at
concrete inputs. -/
def inertOracles : RunOracles :=
  { encoder_gene_length := none,
    random_chromosome := fun _ => (""),
    evaluate_fitness := fun _ => 0,
    selector_scale := fun f => f,
    selector_select := fun _ _ _ => [],
    powf := fun _ _ => 0 }

/-- A parameter record violating the first `run` precondition
(`survival_factor = 2 >= 1`); the remaining fields are arbitrary. -/
def configViolationParams : RunParams :=
  { init_pop_size := 4, max_pop_size := 100, expansion_factor := 2,
    survival_factor := 2, survival_elitism_factor := some 1,
    replacement := false, mutation_factor := 1, mutation_factor_growth := 0,
    mutation_factor_growth_type := some .lin, max_generations := some 5,
    fitness_threshold := some 100, stagnation_limit := none,
    diversity_bias := none, diversity_bias_decay := none,
    diversity_bias_decay_type := some .exp }

/-- Witness for `run_config_error_iff`: at a concrete violating parameter
record, `run` returns exactly the first check's error, and the
precondition predicate holds. -/
theorem run_config_error_iff_witness :
    run configViolationParams inertOracles = .error .valueErrorSurvivalFactor ∧
    preconditionViolatedB configViolationParams = true :=
  ⟨(run_config_error_iff configViolationParams inertOracles).2
      .valueErrorSurvivalFactor rfl,
   rfl⟩

/-- Parameters for a concrete healthy-looking run: all three preconditions
satisfied, elitism enabled, one generation allowed. -/
def exampleRunParams : RunParams :=
  { init_pop_size := 1, max_pop_size := 100, expansion_factor := 2,
    survival_factor := 1/2, survival_elitism_factor := some 1,
    replacement := false, mutation_factor := 1, mutation_factor_growth := 0,
    mutation_factor_growth_type := some .lin, max_generations := some 1,
    fitness_threshold := some 100, stagnation_limit := none,
    diversity_bias := none, diversity_bias_decay := none,
    diversity_bias_decay_type := some .exp }

/-- Concrete operator oracles for the healthy-looking run: an encoder
subclass that does supply `gene_length`, constant random chromosomes,
fitness = chromosome length, identity scaling. -/
def exampleRunOracles : RunOracles :=
  { encoder_gene_length := some 8,
    random_chromosome := fun _ => ("0000"),
    evaluate_fitness := fun s => (s.length : ℚ),
    selector_scale := fun f => f,
    selector_select := fun _ _ _ => [],
    powf := fun v _ => v }

/-- C5: with `survival_elitism_factor` set and every precondition
satisfied, `run` raises TypeError during generation 0 — at the
`grow_population` call of src line 950, which passes four positional
arguments to a method whose signature (src lines 1066-1072) requires five
— so no generation ever completes, the end-of-generation re-sort of src
lines 963-967 is never reached, and no Solution carrying the sortedness
invariant is ever returned. -/
theorem runLoop_succ_eq (P : RunParams) (O : RunOracles)
    (stagnation_limit : Option Int) (fuel : Nat) (st : LoopState) :
    runLoop P O stagnation_limit (fuel + 1) st =
      runLoopCheck P st
        (match runGenerationBody P O stagnation_limit st with
         | .error e => .error e
         | .ok (.inl sol) => .ok sol
         | .ok (.inr st') => runLoop P O stagnation_limit fuel st') := rfl

theorem run_generation_zero_grow_arity :
    run exampleRunParams exampleRunOracles =
      .error .typeErrorGrowPopulationArity := by
  have hlen : ("0000" : String).length = 4 := rfl
  have hceil : (⌈(1 : ℚ)/2⌉ : Int) = 1 := by
    rw [Int.ceil_eq_iff]
    norm_num
  have hpre : run exampleRunParams exampleRunOracles =
      runLoop exampleRunParams exampleRunOracles none 1
        { population := [("0000")], fitness_values := [4],
          max_fitness := 4, min_fitness := 4, generation := 0,
          best_fitness_achieved := 4, best_individual_achieved := none,
          stagnated_generations := 0, diversity_bias := none,
          mutation_factor := 1 } := by
    norm_num [run, exampleRunParams, exampleRunOracles,
      resolveStagnationLimit, runMain, create_population, sortIfElitism,
      sortByFitness, pyMaxQ, pyMinQ, loopFuel, List.range_succ,
      List.insertionSort, List.orderedInsert, hlen]
  rw [hpre, show (1 : Nat) = 0 + 1 from rfl, runLoop_succ_eq]
  have hbody : runGenerationBody exampleRunParams exampleRunOracles none
      { population := [("0000")], fitness_values := [4],
        max_fitness := 4, min_fitness := 4, generation := 0,
        best_fitness_achieved := 4, best_individual_achieved := none,
        stagnated_generations := 0, diversity_bias := none,
        mutation_factor := 1 } = .error .typeErrorGrowPopulationArity := by
    norm_num [runGenerationBody, exampleRunParams, exampleRunOracles,
      biasAdjust, cull_population, ratCeil, afterGrowth, hceil]
  rw [hbody]
  norm_num [runLoopCheck, exampleRunParams]

/-- A concrete deterministic selector used to exercise `cull_population`:
returns the first `quantity` chromosomes. -/
def takeSelector : List String → List ℚ → Int → List String :=
  fun population _ quantity => population.take quantity.toNat

/-- C4: culling `[A, B, C, D]` with ascending fitness `[1, 2, 3, 4]`,
`survival_factor = 1/2` and `elitism_factor = 1.0` yields survivors
exactly `[C, D]` (the all-elite branch, src lines 1053-1055); but in the
mixed branch `0 < elite_quantity < survive_quantity` (here
`survival_factor = 3/4`, `elitism_factor = 1/3`) the claimed
elite-plus-stochastic-remainder result is never produced: src line 1061
unpacks the selector's returned chromosome list into the two result
sequences and src line 1063 concatenates a chromosome with the elite
list, raising TypeError. -/
theorem cull_population_scenario_and_mixed_branch :
    cull_population takeSelector
        [("A"), ("B"), ("C"), ("D")] [1, 2, 3, 4] (1/2) (some 1)
      = .ok (.pair [("C"), ("D")] [3, 4]) ∧
    cull_population takeSelector
        [("A"), ("B"), ("C"), ("D")] [1, 2, 3, 4] (3/4) (some (1/3))
      = .error .typeErrorConcatStrList := by
  have hceil2 : (⌈(4 : ℚ) * (1/2)⌉ : Int) = 2 := by
    rw [Int.ceil_eq_iff]
    norm_num
  have hceil2a : (⌈(2 : ℚ) * 1⌉ : Int) = 2 := by
    rw [Int.ceil_eq_iff]
    norm_num
  have hceil3 : (⌈(4 : ℚ) * (3/4)⌉ : Int) = 3 := by
    rw [Int.ceil_eq_iff]
    norm_num
  have hceil3a : (⌈(3 : ℚ) * (1/3)⌉ : Int) = 1 := by
    rw [Int.ceil_eq_iff]
    norm_num
  constructor
  · norm_num [cull_population, ratCeil, takeSelector, pySliceFrom,
      pySliceTo, pyIndexClamp, hceil2, hceil2a]
    exact ⟨rfl, rfl⟩
  · norm_num [cull_population, ratCeil, takeSelector, pySliceFrom,
      pySliceTo, pyIndexClamp, hceil3, hceil3a]
    intro h
    exact absurd rfl h

/-- C1: for every combination of encoder, selector, recombinator and
mutator arguments, `GeneticSystem.__init__` raises AttributeError on the
assignment `self.__selector = selector` (src line 730): `__slots__`
(src lines 716-720) carries slots only for the encoder, recombinator,
mutator and random-generator names, so no instance is ever constructed
and no method (`run`, `cull_population`, `grow_population`,
`mutate_population`) is ever invocable on an instance. -/
theorem geneticSystemInit_always_raises {E S R M : Type}
    (encoder : E) (selector : S) (recombinator : R) (mutator : M) :
    geneticSystemInit encoder selector recombinator mutator =
      .error (.attributeError ("_GeneticSystem__selector")) := by
  rfl

/-- C10: every string `base` argument to `GeneticEncoder.__init__` —
including the documented default `"bin"` and the names `"oct"` and
`"hex"` — falls through the negated `isinstance(base, str)` test and
every `elif` branch to the unknown-base TypeError (src lines 229-237),
while the non-string alternatives the signature documents are used as
enum lookup keys and also fail: a `BitStringBaseTypes` member raises
KeyError and a `list` raises TypeError (unhashable). -/
theorem geneticEncoderInitBase_strings_raise :
    (∀ s : String,
      geneticEncoderInitBase (.str s) = .error .typeErrorUnknownBase) ∧
    (∀ m : BitStringBaseName,
      geneticEncoderInitBase (.bitStringMember m) = .error .keyError) ∧
    (∀ n : Nat,
      geneticEncoderInitBase (.pyList n) = .error .typeErrorUnhashable) := by
  refine ⟨fun s => rfl, fun m => rfl, fun n => rfl⟩

/-- C6: the probability vector `RankedSelector.select` hands to the
sampler assigns the individual at sorted position `i` the weight
`i / sum(1..N)` — not the claimed `(i+1) / sum(1..N)`: at `N = 4` the
code's vector is `[0, 1/10, 1/5, 3/10]`, summing to `3/5` rather than 1,
and the lowest-ranked individual has probability 0 rather than `1/10`;
the spec-side vector `[1/10, 1/5, 3/10, 2/5]` sums to 1. -/
theorem rankedSelectorRanks_off_by_one :
    rankedSelectorRanks 4 = [0, 1/10, 1/5, 3/10] ∧
    (rankedSelectorRanks 4).sum = 3/5 ∧
    ¬ (rankedSelectorRanks 4).sum = 1 ∧
    (rankedSelectorRanks 4).head? = some 0 ∧
    rankedSelectorRanksSpec 4 = [1/10, 1/5, 3/10, 2/5] ∧
    (rankedSelectorRanksSpec 4).sum = 1 ∧
    ¬ rankedSelectorRanks 4 = rankedSelectorRanksSpec 4 := by
  refine ⟨?_, ?_, ?_, ?_, ?_, ?_, ?_⟩ <;>
    norm_num [rankedSelectorRanks, rankedSelectorRanksSpec, List.range_succ]

/-- C9: `max_n([1, 2, 3], n = 2)` returns `[1, 2]` — the two smallest
elements, because src line 262 takes the first `n` of an ascending sort —
excluding the largest element 3, contradicting the claim (and the
function's own docstring) that the `n` largest are returned; the `n = 1`
case does return the single largest element. -/
theorem max_n_returns_smallest :
    max_n [1, 2, 3] 2 (fun x => x) = some (Sum.inr [1, 2]) ∧
    (3 : Int) ∈ ([1, 2, 3] : List Int) ∧
    ¬ (3 : Int) ∈ ([1, 2] : List Int) ∧
    max_n [1, 2, 3] 1 (fun x => x) = some (Sum.inl 3) := by
  refine ⟨by decide, by decide, by decide, by decide⟩

/-- Membership in the drawable cut-pair set: exactly the pairs with
`left < length`, `left ≤ right` and `right < length`. -/
theorem pointCrossOverCutSupport_mem (n left right : Nat) :
    (left, right) ∈ pointCrossOverCutSupport n ↔
      left < n ∧ left ≤ right ∧ right < n := by
  unfold pointCrossOverCutSupport
  simp only [List.mem_flatMap, List.mem_map, List.mem_range, Prod.mk.injEq]
  constructor
  · rintro ⟨l, hl, k, hk, he1, he2⟩
    omega
  · rintro ⟨ha, hb, hc⟩
    exact ⟨left, ha, ⟨right - left, by omega, rfl, by omega⟩⟩

theorem pointCrossOverRecombine_fst_length {α : Type} (c1 c2 : List α)
    (n left right : Nat) (h1 : c1.length = n) (h2 : c2.length = n)
    (hlr : left ≤ right) (hrn : right ≤ n) :
    ((pointCrossOverRecombine c1 c2 left right).1).length = n := by
  unfold pointCrossOverRecombine
  simp only [List.length_append, List.length_take, List.length_drop, h1, h2]
  omega

theorem pointCrossOverRecombine_fst_getElem {α : Type} (c1 c2 : List α)
    (n left right : Nat) (h1 : c1.length = n) (h2 : c2.length = n)
    (hlr : left ≤ right) (hrn : right ≤ n) (i : Nat) :
    ((pointCrossOverRecombine c1 c2 left right).1)[i]? =
      if left ≤ i ∧ i < right then c2[i]? else c1[i]? := by
  unfold pointCrossOverRecombine
  simp only [List.getElem?_append, List.getElem?_take, List.getElem?_drop,
    List.length_append, List.length_take, List.length_drop, h1, h2]
  split_ifs <;>
    first
      | rfl
      | omega
      | (exfalso; omega)
      | (congr 1; omega)

/-- The second offspring is the first offspring of the swapped parents. -/
theorem pointCrossOverRecombine_swap {α : Type} (c1 c2 : List α)
    (left right : Nat) :
    (pointCrossOverRecombine c1 c2 left right).2 =
      (pointCrossOverRecombine c2 c1 left right).1 := rfl

/-- C7 counterexample: the claim says the cut indices are drawn uniformly
over the full range `0 ≤ left ≤ right ≤ length`, but `numpy.random.randint`
excludes its upper bound, so the pair `(0, 8)` — inside the claimed range
for chromosomes of length 8 — is never drawn, and the joint distribution
over the pairs that are drawn is not uniform either: `(0, 0)` has
probability `1/64` while `(7, 7)` has probability `1/8`. -/
theorem pointCrossOver_full_range_not_drawn :
    ((0, 8) ∈ pointCrossOverClaimedCutRange 8) ∧
    ¬ ((0, 8) ∈ pointCrossOverCutSupport 8) ∧
    ¬ pointCrossOverCutProb 8 0 0 = pointCrossOverCutProb 8 7 7 := by
  refine ⟨by decide, by decide, ?_⟩
  norm_num [pointCrossOverCutProb]

/-- C7 (amended): for equal-length parents and any cut pair the code can
draw, offspring 1 is `parent1[:left] + parent2[left:right] +
parent1[right:]` (gene at position `i` comes from parent 2 exactly when
`left ≤ i < right`), offspring 2 is the complementary swap, both offspring
keep the parents' length, and recombining `"00000000"` with `"11111111"`
at cut points `(2, 5)` yields `("00111000", "11000111")`; the cut pairs
the code draws are exactly `0 ≤ left ≤ right ≤ length - 1` (`left` uniform
on `[0, length)`, then `right` uniform on `[left, length)`), each with
positive probability, and `right = length` is never drawn. -/
theorem pointCrossOver_recombine_amended :
    (∀ (α : Type) (c1 c2 : List α) (n left right : Nat),
        c1.length = n → c2.length = n →
        (left, right) ∈ pointCrossOverCutSupport n →
          ((pointCrossOverRecombine c1 c2 left right).1.length = n ∧
           (pointCrossOverRecombine c1 c2 left right).2.length = n ∧
           (∀ i : Nat, ((pointCrossOverRecombine c1 c2 left right).1)[i]? =
              if left ≤ i ∧ i < right then c2[i]? else c1[i]?) ∧
           (∀ i : Nat, ((pointCrossOverRecombine c1 c2 left right).2)[i]? =
              if left ≤ i ∧ i < right then c1[i]? else c2[i]?))) ∧
    (∀ n left right : Nat,
        (left, right) ∈ pointCrossOverCutSupport n ↔
          left < n ∧ left ≤ right ∧ right < n) ∧
    (∀ n left right : Nat, (left, right) ∈ pointCrossOverCutSupport n →
        0 < pointCrossOverCutProb n left right) ∧
    pointCrossOverRecombine (("00000000").toList) (("11111111").toList) 2 5
      = ((("00111000").toList), (("11000111").toList)) := by
  refine ⟨?_, pointCrossOverCutSupport_mem, ?_, by decide⟩
  · intro α c1 c2 n left right h1 h2 hmem
    obtain ⟨ha, hb, hc⟩ := (pointCrossOverCutSupport_mem n left right).mp hmem
    refine ⟨pointCrossOverRecombine_fst_length c1 c2 n left right h1 h2 hb
        (by omega),
      ?_,
      pointCrossOverRecombine_fst_getElem c1 c2 n left right h1 h2 hb
        (by omega),
      ?_⟩
    · rw [pointCrossOverRecombine_swap]
      exact pointCrossOverRecombine_fst_length c2 c1 n left right h2 h1 hb
        (by omega)
    · intro i
      rw [pointCrossOverRecombine_swap]
      exact pointCrossOverRecombine_fst_getElem c2 c1 n left right h2 h1 hb
        (by omega) i
  · intro n left right hmem
    obtain ⟨ha, hb, hc⟩ := (pointCrossOverCutSupport_mem n left right).mp hmem
    unfold pointCrossOverCutProb
    rw [if_pos ⟨ha, hb, hc⟩]
    have h0 : 0 < n := by omega
    have h0l : 0 < n - left := by omega
    have hn : (0 : ℚ) < (n : ℚ) := by exact_mod_cast h0
    have hnl : (0 : ℚ) < ((n - left : Nat) : ℚ) := by exact_mod_cast h0l
    exact mul_pos (div_pos one_pos hn) (div_pos one_pos hnl)

/-- Witness for `pointCrossOver_recombine_amended`: instantiated at the
concrete scenario chromosomes with the drawable cut pair `(2, 5)`. -/
theorem pointCrossOver_recombine_amended_witness :
    (("00000000").toList.length = 8) ∧
    ((2, 5) ∈ pointCrossOverCutSupport 8) ∧
    (pointCrossOverRecombine (("00000000").toList) (("11111111").toList)
        2 5).1.length = 8 ∧
    0 < pointCrossOverCutProb 8 2 5 :=
  ⟨by decide, by decide,
   (pointCrossOver_recombine_amended.1 Char (("00000000").toList)
      (("11111111").toList) 8 2 5 (by decide) (by decide) (by decide)).1,
   pointCrossOver_recombine_amended.2.2.1 8 2 5 (by decide)⟩

/-- C8 counterexample: at `v = 0` the exponential schedule is constant in
`d`, so it is not strictly decreasing over `0 < d < 1` as the claim
states it (with `v` implicitly universal). -/
theorem exponential_decay_not_strict_at_zero :
    (0 : ℚ) < 1/4 ∧ (1/4 : ℚ) < 1/2 ∧ (1/2 : ℚ) < 1 ∧
    exponential_decay 0 (1/2) = exponential_decay 0 (1/4) := by
  refine ⟨by norm_num, by norm_num, by norm_num, ?_⟩
  norm_num [exponential_decay]

/-- C8 (amended): `linear_decay(v, d) = max(0, v - d)` is non-increasing
in `d` and floored at 0; `exponential_decay(v, d) = v * (1 - d)` is
strictly decreasing in `d` on `0 < d < 1` for every `v > 0` (at `v = 0`
it is constant, see the counterexample); and
`polynomial_decay(v, d) = v ^ (1 / (1 - d))` is defined and finite for
every `0 ≤ v ≤ 1` and `0 ≤ d < 1`: the exponent's denominator `1 - d` is
non-zero and the value lies in `[0, 1]`. -/
theorem decay_schedules_amended :
    (∀ v d : ℚ, linear_decay v d = max 0 (v - d) ∧ 0 ≤ linear_decay v d) ∧
    (∀ v d d' : ℚ, d ≤ d' → linear_decay v d' ≤ linear_decay v d) ∧
    (∀ v d : ℚ, exponential_decay v d = v * (1 - d)) ∧
    (∀ v d d' : ℚ, 0 < v → 0 < d → d < d' → d' < 1 →
        exponential_decay v d' < exponential_decay v d) ∧
    (∀ v d : ℝ, 0 ≤ v → v ≤ 1 → 0 ≤ d → d < 1 →
        polynomial_decay v d = v ^ ((1 : ℝ) / (1 - d)) ∧
        (1 : ℝ) - d ≠ 0 ∧
        0 ≤ polynomial_decay v d ∧ polynomial_decay v d ≤ 1) := by
  refine ⟨fun v d => ⟨rfl, le_max_left 0 _⟩, ?_, fun v d => rfl, ?_, ?_⟩
  · intro v d d' h
    exact max_le_max le_rfl (sub_le_sub_left h v)
  · intro v d d' hv hd hdd hd1
    unfold exponential_decay
    have h : (1 : ℚ) - d' < 1 - d := by linarith
    exact mul_lt_mul_of_pos_left h hv
  · intro v d h0v h1v h0d h1d
    have hpos : (0 : ℝ) < 1 - d := by linarith
    refine ⟨rfl, ne_of_gt hpos, ?_, ?_⟩
    · exact Real.rpow_nonneg h0v _
    · exact Real.rpow_le_one h0v h1v (div_nonneg zero_le_one (le_of_lt hpos))

/-- Witness for `decay_schedules_amended`: the exponential schedule
strictly decreases from `d = 1/4` to `d = 1/2` at `v = 1/2`, and the
polynomial schedule at `v = 1/2, d = 1/2` is a real in `[0, 1]`. -/
theorem decay_schedules_amended_witness :
    exponential_decay (1/2) (1/2) < exponential_decay (1/2) (1/4) ∧
    0 ≤ polynomial_decay (1/2) (1/2) ∧ polynomial_decay (1/2) (1/2) ≤ 1 :=
  ⟨decay_schedules_amended.2.2.2.1 (1/2) (1/4) (1/2) (by norm_num)
      (by norm_num) (by norm_num) (by norm_num),
   (decay_schedules_amended.2.2.2.2 (1/2) (1/2) (by norm_num) (by norm_num)
      (by norm_num) (by norm_num)).2.2.1,
   (decay_schedules_amended.2.2.2.2 (1/2) (1/2) (by norm_num) (by norm_num)
      (by norm_num) (by norm_num)).2.2.2⟩

end Jinx
